import Mathlib

/-!
Verification of the RetroAchievements Python API client
(`src/retroachievements/client.py`) against its natural-language
specification.  The client is shallowly embedded: Python dicts become
association lists, the `requests` HTTP layer becomes an explicit oracle
`Http : Request → Response`, the `warnings` module becomes an explicit
warning trace threaded through each wrapper, and `datetime.date.today()`
becomes an explicit `today : Date` argument.
-/

namespace RAPy

/-- A Python value that can appear in a query-parameter dict:
a string, an integer, `None`, or some other object. -/
inductive RAValue where
  | str (s : String)
  | int (n : Int)
  | none
  | other
deriving DecidableEq

/-- A Python value passed to `is_valid_game_csv` (annotated `str | int`
in the source, but any object can arrive): an integer, a string, or a
value of any other type. -/
inductive PyVal where
  | int (n : Int)
  | str (s : String)
  | other
deriving DecidableEq

/-- A Python dict with string keys, as an association list (keys unique
in every dict the client builds; insertion order is kept, as in Python). -/
abbrev Dict := List (String × RAValue)

/-- `d.update({k: v})` for a single key: if `k` is already bound its
binding is replaced in place (position kept), otherwise `(k, v)` is
appended at the end — exactly the Python `dict.update` semantics. -/
def dictUpdate (d : Dict) (k : String) (v : RAValue) : Dict :=
  match d with
  | [] => [(k, v)]
  | (k0, v0) :: rest => if k0 = k then (k, v) :: rest else (k0, v0) :: dictUpdate rest k v

/-- `RAClient.url_params` (client.py lines 20-27): if `params is None`
start from `{}`, then `params.update({"y": self.api_key})` and return
the dict. -/
def url_params (api_key : String) (params : Option Dict) : Dict :=
  match params with
  | Option.none => dictUpdate [] "y" (RAValue.str api_key)
  | Option.some p => dictUpdate p "y" (RAValue.str api_key)

/-- Python `value.split(",")` on a list of characters: the tokens
between commas; `"".split(",") = [""]`, and `n` commas give `n+1`
tokens (empty tokens included). -/
def pySplit (sep : Char) : List Char → List (List Char)
  | [] => [[]]
  | c :: rest =>
    match pySplit sep rest with
    | [] => [[]]
    | p :: ps => if c = sep then [] :: p :: ps else (c :: p) :: ps

/-- Python `str.lstrip()`: drop leading whitespace. -/
def pyLStrip (cs : List Char) : List Char := cs.dropWhile Char.isWhitespace

/-- Python `str.rstrip()`: drop trailing whitespace. -/
def pyRStrip (cs : List Char) : List Char := (cs.reverse.dropWhile Char.isWhitespace).reverse

/-- Python `str.strip()`: drop leading and trailing whitespace. -/
def pyStrip (cs : List Char) : List Char := pyRStrip (pyLStrip cs)

/-- Python `str.isdigit()` (on the ASCII digits the spec talks about):
true iff the string is non-empty and every character is a digit. -/
def pyIsdigit (cs : List Char) : Bool := !cs.isEmpty && cs.all Char.isDigit

/-- `RAClient.is_valid_game_csv` (client.py lines 29-49): an integer is
always valid; a string is split on commas, empty tokens are skipped
(Python's `if part` truthiness filter), and each remaining token must
satisfy `part.strip().isdigit()`; any other type is invalid. -/
def is_valid_game_csv : PyVal → Bool
  | PyVal.int _ => true
  | PyVal.str s =>
    ((pySplit ',' s.data).filter (fun p => !p.isEmpty)).all (fun p => pyIsdigit (pyStrip p))
  | PyVal.other => false

/-- A calendar date, standing for `datetime.date.today()`: the current
local date is passed explicitly to the two wrappers that consult it. -/
structure Date where
  year : Nat
  month : Nat
  day : Nat
deriving DecidableEq

/-- Left-pad a decimal rendering with zeros up to `width` characters. -/
def padZero (width : Nat) (s : String) : String :=
  String.mk (List.replicate (width - s.length) '0') ++ s

/-- `date.strftime("%Y-%m-%d")`: four-digit zero-padded year, two-digit
month and day, hyphen-separated. -/
def strftimeYMD (d : Date) : String :=
  padZero 4 (toString d.year) ++ "-" ++ padZero 2 (toString d.month) ++ "-" ++ padZero 2 (toString d.day)

/-- An untyped JSON value, the decoded body of a service response. -/
inductive Json where
  | null
  | bool (b : Bool)
  | num (n : Int)
  | str (s : String)
  | arr (elems : List Json)
  | obj (fields : List (String × Json))

/-- A `requests.Response` object: the status, the raw body text, and
(the result of) its `.json()` parse. -/
structure Response where
  status_code : Int
  text : String
  jsonBody : Json

/-- `Response.json()`: the body parsed as JSON. -/
def Response.json (r : Response) : Json := r.jsonBody

/-- What a Python function can hand back here: either a raw
`requests.Response` object or an already-parsed JSON value.  Needed to
state whether `_call_api` returns the one or the other. -/
inductive PyObject where
  | response (r : Response)
  | jsonVal (j : Json)

/-- Whether a returned object is a parsed JSON value (rather than a raw
response object). -/
def PyObject.isJsonValue : PyObject → Bool
  | PyObject.jsonVal _ => true
  | PyObject.response _ => false

/-- `.json()` called on the object a wrapper got back from `_call_api`
(always a `Response` in this client; on an already-parsed value it
would be the value itself). -/
def PyObject.json : PyObject → Json
  | PyObject.response r => r.jsonBody
  | PyObject.jsonVal j => j

/-- The HTTP GET request `requests.get` is asked to perform: method,
full URL, query-parameter dict, timeout and optional headers. -/
structure Request where
  method : String
  url : String
  params : Dict
  timeout : Int
  headers : Option Dict

/-- The HTTP transport, as an oracle from requests to responses. -/
abbrev Http := Request → Response

/-- `RAClient`: holds the API key given at construction. -/
structure RAClient where
  api_key : String
deriving DecidableEq

/-- `_BASE_URL` (client.py line 7). -/
def _BASE_URL : String := "https://retroachievements.org/API/"

/-- `RAClient._call_api` (client.py lines 52-67): default the endpoint
to `""`, perform `requests.get(_BASE_URL + endpoint, params=self.url_params(params),
timeout=timeout, headers=headers)` and return the response object
(`return req` — the body is not parsed here).  The Python defaults
`timeout=30`, `headers=None` are written explicitly at call sites. -/
def _call_api (http : Http) (self : RAClient) (endpoint : Option String)
    (params : Option Dict) (timeout : Int) (headers : Option Dict) : PyObject :=
  let e := (match endpoint with | Option.none => "" | Option.some s => s)
  PyObject.response (http { method := "GET", url := _BASE_URL ++ e,
                            params := url_params self.api_key params,
                            timeout := timeout, headers := headers })

/-- A `warnings.warn(message, category, ...)` emission. -/
structure PyWarning where
  category : String
  message : String
deriving DecidableEq

/-- The advisory text of `get_user_progress` (client.py lines 216-220). -/
def user_progress_advisory : String :=
  "Unless you are explicitly wanting summary progress details for specific game IDS, get_user_completion_progress will almost certainly be better-suited for your use case."

/-- The advisory text of `get_user_summary` (client.py lines 261-266;
Python juxtaposes the two adjacent string literals with no separator). -/
def user_summary_advisory : String :=
  "This endpoint is known to be slow, and often results in over-fetching. For basic user profile information, try the get_user_profile endpoint. For user completion and game progress information, try the get_user_completion_progress endpoint." ++ "Recent achievements are pulled from recent games, so if you ask for 1 game and 10 achievements, and the user has only earned 8 achievements in the most recent game, you'll only get 8 recent achievements back. Similarly, with the default of 0 recent games, no recent achievements will be returned."

/-- The advisory text of `get_user_completed_games` (client.py lines 283-287). -/
def user_completed_games_advisory : String :=
  "This endpoint is considered 'legacy'. The get_user_completion_progress endpoint will almost always be a better fit for your use case."

/-- The str-or-int game argument of `get_user_progress` placed into the
query dict (`.other` never reaches a dict: the validator rejects it). -/
def pyValParam : PyVal → RAValue
  | PyVal.int n => RAValue.int n
  | PyVal.str s => RAValue.str s
  | PyVal.other => RAValue.other

/-- The result of one wrapper call: the warning trace (the input trace
`w` with any advisory appended) and either a `ValueError` message or
the response body parsed as JSON. -/
abbrev CallResult := List PyWarning × Except String Json

/-- `get_user_achievements_earned_on_day` (client.py lines 113-126):
`date=None` is replaced by `datetime.date.today().strftime("%Y-%m-%d")`
(in the Python signature `date` has no default value); then a request
with `{"u": user, "d": date}`. -/
def get_user_achievements_earned_on_day (http : Http) (self : RAClient) (today : Date)
    (w : List PyWarning) (user : String) (date : Option String) : CallResult :=
  let d := (match date with | Option.none => strftimeYMD today | Option.some s => s)
  (w, Except.ok (PyObject.json (_call_api http self (Option.some ("API_GetAchievementsEarnedOnDay.php?"))
    (Option.some [("u", RAValue.str user), ("d", RAValue.str d)]) 30 Option.none)))

/-- `get_game_info_and_user_progress` (client.py lines 128-144):
`awards not in [0, 1]` raises before any request; otherwise a request
with `{"u": user, "g": game, "a": awards}`. -/
def get_game_info_and_user_progress (http : Http) (self : RAClient) (w : List PyWarning)
    (user : String) (game : Int) (awards : Int) : CallResult :=
  (w,
    if awards ∉ ([0, 1] : List Int) then
      Except.error ("Invalid awards value. Must be 0 or 1.")
    else
      Except.ok (PyObject.json (_call_api http self (Option.some ("API_GetGameInfoAndUserProgress.php?"))
        (Option.some [("u", RAValue.str user), ("g", RAValue.int game), ("a", RAValue.int awards)]) 30 Option.none)))

/-- `get_user_progress` (client.py lines 205-227): warns first
(category `Warning`), then rejects a game argument that fails
`is_valid_game_csv`, then requests with `{"u": user, "i": game}`. -/
def get_user_progress (http : Http) (self : RAClient) (w : List PyWarning)
    (user : String) (game : PyVal) : CallResult :=
  (w ++ [{ category := "Warning", message := user_progress_advisory }],
    if is_valid_game_csv game = false then
      Except.error ("Invalid game ID or CSV format")
    else
      Except.ok (PyObject.json (_call_api http self (Option.some ("API_GetUserProgress.php?"))
        (Option.some [("u", RAValue.str user), ("i", pyValParam game)]) 30 Option.none)))

/-- `get_user_summary` (client.py lines 245-271): warns (category
`Warning`), then requests with `{"u": user, "g": recent_games,
"a": recent_cheevos}` (Python defaults `recent_games=0`,
`recent_cheevos=10`). -/
def get_user_summary (http : Http) (self : RAClient) (w : List PyWarning)
    (user : String) (recent_games : Int) (recent_cheevos : Int) : CallResult :=
  (w ++ [{ category := "Warning", message := user_summary_advisory }],
    Except.ok (PyObject.json (_call_api http self (Option.some ("API_GetUserSummary.php?"))
      (Option.some [("u", RAValue.str user), ("g", RAValue.int recent_games), ("a", RAValue.int recent_cheevos)]) 30 Option.none)))

/-- `get_user_completed_games` (client.py lines 273-289): warns
(category `DeprecationWarning`), then requests with `{"u": user}`. -/
def get_user_completed_games (http : Http) (self : RAClient) (w : List PyWarning)
    (user : String) : CallResult :=
  (w ++ [{ category := "DeprecationWarning", message := user_completed_games_advisory }],
    Except.ok (PyObject.json (_call_api http self (Option.some ("API_GetUserCompletedGames.php?"))
      (Option.some [("u", RAValue.str user)]) 30 Option.none)))

/-- `get_user_set_requests` (client.py lines 337-351): `list_type not
in [0, 1]` raises; otherwise `{"u": user, "t": list_type}`. -/
def get_user_set_requests (http : Http) (self : RAClient) (w : List PyWarning)
    (user : String) (list_type : Int) : CallResult :=
  (w,
    if list_type ∉ ([0, 1] : List Int) then
      Except.error ("Invalid list type. Must be 0 or 1.")
    else
      Except.ok (PyObject.json (_call_api http self (Option.some ("API_GetUserSetRequests.php?"))
        (Option.some [("u", RAValue.str user), ("t", RAValue.int list_type)]) 30 Option.none)))

/-- `get_game` (client.py lines 355-363): a request with `{"i": game}`. -/
def get_game (http : Http) (self : RAClient) (w : List PyWarning) (game : Int) : CallResult :=
  (w, Except.ok (PyObject.json (_call_api http self (Option.some ("API_GetGame.php?"))
    (Option.some [("i", RAValue.int game)]) 30 Option.none)))

/-- `get_game_extended` (client.py lines 365-378): `set_level not in
[3, 5]` raises; otherwise `{"i": game, "f": set_level}`. -/
def get_game_extended (http : Http) (self : RAClient) (w : List PyWarning)
    (game : Int) (set_level : Int) : CallResult :=
  (w,
    if set_level ∉ ([3, 5] : List Int) then
      Except.error ("Invalid set type selected. Must be 3 or 5.")
    else
      Except.ok (PyObject.json (_call_api http self (Option.some ("API_GetGameExtended.php?"))
        (Option.some [("i", RAValue.int game), ("f", RAValue.int set_level)]) 30 Option.none)))

/-- `get_achievement_distribution` (client.py lines 400-419): checks
`achievement_type not in [0, 1]` then `set_level not in [3, 5]`;
otherwise `{"i": game, "h": achievement_type, "f": set_level}`. -/
def get_achievement_distribution (http : Http) (self : RAClient) (w : List PyWarning)
    (game : Int) (achievement_type : Int) (set_level : Int) : CallResult :=
  (w,
    if achievement_type ∉ ([0, 1] : List Int) then
      Except.error ("Invalid achievement type. Must be 0 or 1.")
    else if set_level ∉ ([3, 5] : List Int) then
      Except.error ("Invalid set type selected. Must be 3 or 5.")
    else
      Except.ok (PyObject.json (_call_api http self (Option.some ("API_GetAchievementDistribution.php?"))
        (Option.some [("i", RAValue.int game), ("h", RAValue.int achievement_type), ("f", RAValue.int set_level)]) 30 Option.none)))

/-- `get_game_rank_and_score` (client.py lines 421-434): `list_type not
in [0, 1]` raises; otherwise `{"g": game, "t": list_type}`. -/
def get_game_rank_and_score (http : Http) (self : RAClient) (w : List PyWarning)
    (game : Int) (list_type : Int) : CallResult :=
  (w,
    if list_type ∉ ([0, 1] : List Int) then
      Except.error ("Invalid list type. Must be 0 or 1.")
    else
      Except.ok (PyObject.json (_call_api http self (Option.some ("API_GetGameRankAndScore.php?"))
        (Option.some [("g", RAValue.int game), ("t", RAValue.int list_type)]) 30 Option.none)))

/-- `get_game_list` (client.py lines 501-517): checks `has_cheevos not
in [0, 1]` then `hashes not in [0, 1]`; otherwise
`{"i": system, "f": has_cheevos, "h": hashes}`. -/
def get_game_list (http : Http) (self : RAClient) (w : List PyWarning)
    (system : Int) (has_cheevos : Int) (hashes : Int) : CallResult :=
  (w,
    if has_cheevos ∉ ([0, 1] : List Int) then
      Except.error ("Invalid has_cheevos value. Must be 0 or 1.")
    else if hashes ∉ ([0, 1] : List Int) then
      Except.error ("Invalid hashes value. Must be 0 or 1.")
    else
      Except.ok (PyObject.json (_call_api http self (Option.some ("API_GetGameList.php?"))
        (Option.some [("i", RAValue.int system), ("f", RAValue.int has_cheevos), ("h", RAValue.int hashes)]) 30 Option.none)))

/-- `get_comments` (client.py lines 540-568): checks `target not in
[1, 2, 3]` then `sort not in ["submitted", "-submitted"]`; otherwise
`{"i": game, "t": target, "c": count, "o": offset, "sort": sort}`
(Python defaults `count=100`, `offset=0`, `sort="submitted"`). -/
def get_comments (http : Http) (self : RAClient) (w : List PyWarning)
    (game : Int) (target : Int) (count : Int) (offset : Int) (sort : String) : CallResult :=
  (w,
    if target ∉ ([1, 2, 3] : List Int) then
      Except.error ("Invalid target type. Must be 1 (game), 2 (achievement), or 3 (user/ulid).")
    else if sort ∉ (["submitted", "-submitted"] : List String) then
      Except.error ("Invalid sort order. Must be 'submitted' or '-submitted'.")
    else
      Except.ok (PyObject.json (_call_api http self (Option.some ("API_GetComments.php?"))
        (Option.some [("i", RAValue.int game), ("t", RAValue.int target), ("c", RAValue.int count),
          ("o", RAValue.int offset), ("sort", RAValue.str sort)]) 30 Option.none)))

/-- `get_recent_game_awards` (client.py lines 571-602): `date=None`
(the Python default) becomes today's `%Y-%m-%d`; a non-`None` `kind`
outside the four award kinds raises; otherwise `{"d": date,
"o": offset, "c": count, "k": kind}` with `kind` possibly `None`
(Python defaults `offset=0`, `count=25`, `kind=None`). -/
def get_recent_game_awards (http : Http) (self : RAClient) (today : Date) (w : List PyWarning)
    (date : Option String) (offset : Int) (count : Int) (kind : Option String) : CallResult :=
  let d := (match date with | Option.none => strftimeYMD today | Option.some s => s)
  (w,
    match kind with
    | Option.some k =>
      if k ∉ (["beaten-softcore", "beaten-hardcore", "completed", "mastered"] : List String) then
        Except.error ("Invalid kind value. Must be one of 'beaten-softcore', 'beaten-hardcore', 'completed', or 'mastered'.")
      else
        Except.ok (PyObject.json (_call_api http self (Option.some ("API_GetRecentGameAwards.php?"))
          (Option.some [("d", RAValue.str d), ("o", RAValue.int offset), ("c", RAValue.int count),
            ("k", RAValue.str k)]) 30 Option.none))
    | Option.none =>
      Except.ok (PyObject.json (_call_api http self (Option.some ("API_GetRecentGameAwards.php?"))
        (Option.some [("d", RAValue.str d), ("o", RAValue.int offset), ("c", RAValue.int count),
          ("k", RAValue.none)]) 30 Option.none)))

/-- `get_inactive_claims` (client.py lines 614-626): `kind not in
[1, 2, 3]` raises; otherwise `{"k": kind}` (Python default `kind=1`). -/
def get_inactive_claims (http : Http) (self : RAClient) (w : List PyWarning)
    (kind : Int) : CallResult :=
  (w,
    if kind ∉ ([1, 2, 3] : List Int) then
      Except.error ("Invalid kind value. Must be 1 (completed), 2 (dropped) or 3 (expired).")
    else
      Except.ok (PyObject.json (_call_api http self (Option.some ("API_GetInactiveClaims.php?"))
        (Option.some [("k", RAValue.int kind)]) 30 Option.none)))

/-- `get_game_ticket_stats` (client.py lines 685-701): `focus not in
[3, 5]` raises; otherwise `{"g": game, "f": focus, "d": depth}`. -/
def get_game_ticket_stats (http : Http) (self : RAClient) (w : List PyWarning)
    (game : Int) (focus : Int) (depth : Int) : CallResult :=
  (w,
    if focus ∉ ([3, 5] : List Int) then
      Except.error ("Invalid focus value. Must be 3 (official) or 5 (unofficial).")
    else
      Except.ok (PyObject.json (_call_api http self (Option.some ("API_GetTicketData.php?"))
        (Option.some [("g", RAValue.int game), ("f", RAValue.int focus), ("d", RAValue.int depth)]) 30 Option.none)))

/-- A heap of Python dict objects, for stating what `url_params` does
to a dict passed by reference: addresses are list indices. -/
abbrev Heap := List Dict

/-- `url_params` called on an existing dict object (heap cell `r`):
`params.update({"y": api_key})` mutates that object in place, and
`return params` returns the same reference `r`, not a copy. -/
def url_params_ref (api_key : String) (h : Heap) (r : Nat) : Heap × Nat :=
  (h.set r (url_params api_key (Option.some (h.getD r []))), r)

/-- A fixed transport oracle for concrete witness evaluations. -/
def sampleHttp : Http := fun _ => { status_code := 200, text := "null", jsonBody := Json.null }

/-- A client constructed with a fixed key, for witness evaluations. -/
def sampleClient : RAClient := { api_key := "abc123" }

theorem lookup_dictUpdate_self (d : Dict) (k : String) (v : RAValue) :
    (dictUpdate d k v).lookup k = Option.some v := by
  induction d with
  | nil => simp [dictUpdate, List.lookup]
  | cons kv rest ih =>
    obtain ⟨k0, v0⟩ := kv
    by_cases h : k0 = k
    · simp [dictUpdate, h, List.lookup]
    · simp only [dictUpdate, if_neg h, List.lookup]
      rw [beq_eq_false_iff_ne.mpr (Ne.symm h)]
      exact ih

theorem lookup_dictUpdate_ne (d : Dict) (k : String) (v : RAValue) (k' : String)
    (h : k' ≠ k) : (dictUpdate d k v).lookup k' = d.lookup k' := by
  induction d with
  | nil =>
    simp only [dictUpdate, List.lookup]
    rw [beq_eq_false_iff_ne.mpr h]
  | cons kv rest ih =>
    obtain ⟨k0, v0⟩ := kv
    by_cases h0 : k0 = k
    · subst h0
      simp only [dictUpdate, if_pos rfl, List.lookup]
      rw [beq_eq_false_iff_ne.mpr h]
    · simp [dictUpdate, h0, List.lookup, ih]

/-- C1: `is_valid_game_csv` returns true for every integer; for a
string it returns true exactly when every non-empty comma-separated
token, after stripping surrounding whitespace, is non-empty and
consists only of digits (so trailing and doubled commas are tolerated,
while a whitespace-only token — which strips to the empty string, on
which Python's `isdigit` is false — makes it return false); for a
value of any other type it returns false. -/
theorem is_valid_game_csv_spec :
    (∀ n : Int, is_valid_game_csv (PyVal.int n) = true) ∧
    (∀ s : String, is_valid_game_csv (PyVal.str s) = true ↔
      ∀ p ∈ pySplit ',' s.data, p ≠ [] → (pyStrip p ≠ [] ∧ ∀ c ∈ pyStrip p, c.isDigit = true)) ∧
    is_valid_game_csv PyVal.other = false ∧
    is_valid_game_csv (PyVal.str "123,,456") = true ∧
    is_valid_game_csv (PyVal.str "123,") = true ∧
    is_valid_game_csv (PyVal.str "123, ") = false := by
  refine ⟨fun n => rfl, fun s => ?_, rfl, by decide, by decide, by decide⟩
  simp [is_valid_game_csv, pyIsdigit, List.all_eq_true, List.mem_filter, List.isEmpty_iff,
    Bool.not_eq_true', Bool.and_eq_true, List.isEmpty_eq_false, or_iff_not_imp_left]

/-- Witness for C1: the validator evaluated on an integer and on a
concrete CSV string with per-token whitespace and a trailing comma. -/
theorem is_valid_game_csv_spec_witness :
    is_valid_game_csv (PyVal.int 7) = true ∧ is_valid_game_csv (PyVal.str "12, 34,") = true :=
  ⟨is_valid_game_csv_spec.1 7, (is_valid_game_csv_spec.2.1 "12, 34,").mpr (by decide)⟩

/-- C2: for every params mapping (including `None`, the empty dict and
dicts that already bind `"y"`), the dict the dispatcher actually sends
binds `"y"` to the client's API key — the auth value overrides any
caller-supplied `"y"` — and every other key keeps its caller value;
`_call_api` sends exactly `url_params` of its params argument. -/
theorem url_params_auth_wins :
    (∀ (key : String) (p : Option Dict),
      (url_params key p).lookup "y" = Option.some (RAValue.str key)) ∧
    (∀ (key : String) (p : Dict) (k : String), k ≠ "y" →
      (url_params key (Option.some p)).lookup k = p.lookup k) ∧
    (∀ (http : Http) (c : RAClient) (e : String) (p : Option Dict) (t : Int) (hs : Option Dict),
      _call_api http c (Option.some e) p t hs =
        PyObject.response (http { method := "GET", url := _BASE_URL ++ e,
                                  params := url_params c.api_key p,
                                  timeout := t, headers := hs })) := by
  refine ⟨fun key p => ?_, fun key p k hk => lookup_dictUpdate_ne p "y" _ k hk,
    fun _ _ _ _ _ _ => rfl⟩
  cases p with
  | none => exact lookup_dictUpdate_self _ _ _
  | some d => exact lookup_dictUpdate_self _ _ _

/-- Witness for C2: a caller-supplied dict that already binds `"y"`
keeps its other entry `"a"` unchanged. -/
theorem url_params_auth_wins_witness :
    ("a" : String) ≠ "y" ∧
      (url_params "abc123" (Option.some [("y", RAValue.str "old"), ("a", RAValue.int 1)])).lookup "a" =
        ([("y", RAValue.str "old"), ("a", RAValue.int 1)] : Dict).lookup "a" :=
  ⟨by decide,
    url_params_auth_wins.2.1 "abc123" [("y", RAValue.str "old"), ("a", RAValue.int 1)] "a" (by decide)⟩

/-- C3: every endpoint wrapper with an enumerated-value constraint
(awards 0/1, list types 0/1, set levels 3/5, distribution flags,
game-list flags, comments target 1/2/3 and sort token, award kind,
inactive-claims kind 1/2/3, ticket focus 3/5), called with a value
outside the enumeration, returns the ValueError whose message names
the legal values; the transport oracle `http` is universally
quantified and absent from the result, so no HTTP request is issued —
in every wrapper the check precedes the `_call_api` call. -/
theorem enumerated_validators_reject :
    (∀ (http : Http) (c : RAClient) (w : List PyWarning) (user : String) (game awards : Int),
      awards ∉ ([0, 1] : List Int) →
      get_game_info_and_user_progress http c w user game awards =
        (w, Except.error ("Invalid awards value. Must be 0 or 1."))) ∧
    (∀ (http : Http) (c : RAClient) (w : List PyWarning) (user : String) (list_type : Int),
      list_type ∉ ([0, 1] : List Int) →
      get_user_set_requests http c w user list_type =
        (w, Except.error ("Invalid list type. Must be 0 or 1."))) ∧
    (∀ (http : Http) (c : RAClient) (w : List PyWarning) (game set_level : Int),
      set_level ∉ ([3, 5] : List Int) →
      get_game_extended http c w game set_level =
        (w, Except.error ("Invalid set type selected. Must be 3 or 5."))) ∧
    (∀ (http : Http) (c : RAClient) (w : List PyWarning) (game achievement_type set_level : Int),
      achievement_type ∉ ([0, 1] : List Int) →
      get_achievement_distribution http c w game achievement_type set_level =
        (w, Except.error ("Invalid achievement type. Must be 0 or 1."))) ∧
    (∀ (http : Http) (c : RAClient) (w : List PyWarning) (game achievement_type set_level : Int),
      achievement_type ∈ ([0, 1] : List Int) → set_level ∉ ([3, 5] : List Int) →
      get_achievement_distribution http c w game achievement_type set_level =
        (w, Except.error ("Invalid set type selected. Must be 3 or 5."))) ∧
    (∀ (http : Http) (c : RAClient) (w : List PyWarning) (game list_type : Int),
      list_type ∉ ([0, 1] : List Int) →
      get_game_rank_and_score http c w game list_type =
        (w, Except.error ("Invalid list type. Must be 0 or 1."))) ∧
    (∀ (http : Http) (c : RAClient) (w : List PyWarning) (system has_cheevos hashes : Int),
      has_cheevos ∉ ([0, 1] : List Int) →
      get_game_list http c w system has_cheevos hashes =
        (w, Except.error ("Invalid has_cheevos value. Must be 0 or 1."))) ∧
    (∀ (http : Http) (c : RAClient) (w : List PyWarning) (system has_cheevos hashes : Int),
      has_cheevos ∈ ([0, 1] : List Int) → hashes ∉ ([0, 1] : List Int) →
      get_game_list http c w system has_cheevos hashes =
        (w, Except.error ("Invalid hashes value. Must be 0 or 1."))) ∧
    (∀ (http : Http) (c : RAClient) (w : List PyWarning) (game target count offset : Int) (sort : String),
      target ∉ ([1, 2, 3] : List Int) →
      get_comments http c w game target count offset sort =
        (w, Except.error ("Invalid target type. Must be 1 (game), 2 (achievement), or 3 (user/ulid)."))) ∧
    (∀ (http : Http) (c : RAClient) (w : List PyWarning) (game target count offset : Int) (sort : String),
      target ∈ ([1, 2, 3] : List Int) → sort ∉ (["submitted", "-submitted"] : List String) →
      get_comments http c w game target count offset sort =
        (w, Except.error ("Invalid sort order. Must be 'submitted' or '-submitted'."))) ∧
    (∀ (http : Http) (c : RAClient) (today : Date) (w : List PyWarning)
      (date : Option String) (offset count : Int) (k : String),
      k ∉ (["beaten-softcore", "beaten-hardcore", "completed", "mastered"] : List String) →
      get_recent_game_awards http c today w date offset count (Option.some k) =
        (w, Except.error ("Invalid kind value. Must be one of 'beaten-softcore', 'beaten-hardcore', 'completed', or 'mastered'."))) ∧
    (∀ (http : Http) (c : RAClient) (w : List PyWarning) (kind : Int),
      kind ∉ ([1, 2, 3] : List Int) →
      get_inactive_claims http c w kind =
        (w, Except.error ("Invalid kind value. Must be 1 (completed), 2 (dropped) or 3 (expired)."))) ∧
    (∀ (http : Http) (c : RAClient) (w : List PyWarning) (game focus depth : Int),
      focus ∉ ([3, 5] : List Int) →
      get_game_ticket_stats http c w game focus depth =
        (w, Except.error ("Invalid focus value. Must be 3 (official) or 5 (unofficial).")))
    := by
  refine ⟨?_, ?_, ?_, ?_, ?_, ?_, ?_, ?_, ?_, ?_, ?_, ?_, ?_⟩
  · intro http c w user game awards h
    unfold get_game_info_and_user_progress; rw [if_pos h]
  · intro http c w user list_type h
    unfold get_user_set_requests; rw [if_pos h]
  · intro http c w game set_level h
    unfold get_game_extended; rw [if_pos h]
  · intro http c w game at0 sl h
    unfold get_achievement_distribution; rw [if_pos h]
  · intro http c w game at0 sl h1 h2
    unfold get_achievement_distribution; rw [if_neg (not_not_intro h1), if_pos h2]
  · intro http c w game list_type h
    unfold get_game_rank_and_score; rw [if_pos h]
  · intro http c w sys hc hh h
    unfold get_game_list; rw [if_pos h]
  · intro http c w sys hc hh h1 h2
    unfold get_game_list; rw [if_neg (not_not_intro h1), if_pos h2]
  · intro http c w game target count offset sort h
    unfold get_comments; rw [if_pos h]
  · intro http c w game target count offset sort h1 h2
    unfold get_comments; rw [if_neg (not_not_intro h1), if_pos h2]
  · intro http c today w date offset count k h
    simp only [get_recent_game_awards]; rw [if_pos h]
  · intro http c w kind h
    unfold get_inactive_claims; rw [if_pos h]
  · intro http c w game focus depth h
    unfold get_game_ticket_stats; rw [if_pos h]

/-- Witness for C3: each enumerated check evaluated at a concrete
out-of-range value (and, for second-stage checks, a concrete legal
first value). -/
theorem enumerated_validators_reject_witness :
    ((2 : Int) ∉ ([0, 1] : List Int) ∧
      get_game_info_and_user_progress sampleHttp sampleClient [] "u" 1 2 =
        ([], Except.error ("Invalid awards value. Must be 0 or 1."))) ∧
    ((7 : Int) ∉ ([0, 1] : List Int) ∧
      get_user_set_requests sampleHttp sampleClient [] "u" 7 =
        ([], Except.error ("Invalid list type. Must be 0 or 1."))) ∧
    ((4 : Int) ∉ ([3, 5] : List Int) ∧
      get_game_extended sampleHttp sampleClient [] 1 4 =
        ([], Except.error ("Invalid set type selected. Must be 3 or 5."))) ∧
    ((2 : Int) ∉ ([0, 1] : List Int) ∧
      get_achievement_distribution sampleHttp sampleClient [] 1 2 3 =
        ([], Except.error ("Invalid achievement type. Must be 0 or 1."))) ∧
    ((1 : Int) ∈ ([0, 1] : List Int) ∧ (4 : Int) ∉ ([3, 5] : List Int) ∧
      get_achievement_distribution sampleHttp sampleClient [] 1 1 4 =
        ([], Except.error ("Invalid set type selected. Must be 3 or 5."))) ∧
    ((9 : Int) ∉ ([0, 1] : List Int) ∧
      get_game_rank_and_score sampleHttp sampleClient [] 1 9 =
        ([], Except.error ("Invalid list type. Must be 0 or 1."))) ∧
    ((5 : Int) ∉ ([0, 1] : List Int) ∧
      get_game_list sampleHttp sampleClient [] 1 5 0 =
        ([], Except.error ("Invalid has_cheevos value. Must be 0 or 1."))) ∧
    ((0 : Int) ∈ ([0, 1] : List Int) ∧ (5 : Int) ∉ ([0, 1] : List Int) ∧
      get_game_list sampleHttp sampleClient [] 1 0 5 =
        ([], Except.error ("Invalid hashes value. Must be 0 or 1."))) ∧
    ((4 : Int) ∉ ([1, 2, 3] : List Int) ∧
      get_comments sampleHttp sampleClient [] 10 4 100 0 "submitted" =
        ([], Except.error ("Invalid target type. Must be 1 (game), 2 (achievement), or 3 (user/ulid)."))) ∧
    ((2 : Int) ∈ ([1, 2, 3] : List Int) ∧ ("date" : String) ∉ (["submitted", "-submitted"] : List String) ∧
      get_comments sampleHttp sampleClient [] 10 2 100 0 "date" =
        ([], Except.error ("Invalid sort order. Must be 'submitted' or '-submitted'."))) ∧
    (("golfed" : String) ∉ (["beaten-softcore", "beaten-hardcore", "completed", "mastered"] : List String) ∧
      get_recent_game_awards sampleHttp sampleClient { year := 2026, month := 10, day := 12 } []
          (Option.some "2026-01-01") 0 25 (Option.some "golfed") =
        ([], Except.error ("Invalid kind value. Must be one of 'beaten-softcore', 'beaten-hardcore', 'completed', or 'mastered'."))) ∧
    ((0 : Int) ∉ ([1, 2, 3] : List Int) ∧
      get_inactive_claims sampleHttp sampleClient [] 0 =
        ([], Except.error ("Invalid kind value. Must be 1 (completed), 2 (dropped) or 3 (expired)."))) ∧
    ((4 : Int) ∉ ([3, 5] : List Int) ∧
      get_game_ticket_stats sampleHttp sampleClient [] 1 4 0 =
        ([], Except.error ("Invalid focus value. Must be 3 (official) or 5 (unofficial)."))) :=
  ⟨⟨by decide, enumerated_validators_reject.1 sampleHttp sampleClient [] "u" 1 2 (by decide)⟩,
    ⟨by decide, enumerated_validators_reject.2.1 sampleHttp sampleClient [] "u" 7 (by decide)⟩,
    ⟨by decide, enumerated_validators_reject.2.2.1 sampleHttp sampleClient [] 1 4 (by decide)⟩,
    ⟨by decide, enumerated_validators_reject.2.2.2.1 sampleHttp sampleClient [] 1 2 3 (by decide)⟩,
    ⟨by decide, by decide,
      enumerated_validators_reject.2.2.2.2.1 sampleHttp sampleClient [] 1 1 4 (by decide) (by decide)⟩,
    ⟨by decide, enumerated_validators_reject.2.2.2.2.2.1 sampleHttp sampleClient [] 1 9 (by decide)⟩,
    ⟨by decide, enumerated_validators_reject.2.2.2.2.2.2.1 sampleHttp sampleClient [] 1 5 0 (by decide)⟩,
    ⟨by decide, by decide,
      enumerated_validators_reject.2.2.2.2.2.2.2.1 sampleHttp sampleClient [] 1 0 5 (by decide) (by decide)⟩,
    ⟨by decide, enumerated_validators_reject.2.2.2.2.2.2.2.2.1 sampleHttp sampleClient [] 10 4 100 0 "submitted" (by decide)⟩,
    ⟨by decide, by decide,
      enumerated_validators_reject.2.2.2.2.2.2.2.2.2.1 sampleHttp sampleClient [] 10 2 100 0 "date" (by decide) (by decide)⟩,
    ⟨by decide, enumerated_validators_reject.2.2.2.2.2.2.2.2.2.2.1 sampleHttp sampleClient
      { year := 2026, month := 10, day := 12 } [] (Option.some "2026-01-01") 0 25 "golfed" (by decide)⟩,
    ⟨by decide, enumerated_validators_reject.2.2.2.2.2.2.2.2.2.2.2.1 sampleHttp sampleClient [] 0 (by decide)⟩,
    ⟨by decide, enumerated_validators_reject.2.2.2.2.2.2.2.2.2.2.2.2 sampleHttp sampleClient [] 1 4 0 (by decide)⟩⟩

/-- C4 counterexample: at a concrete transport oracle, client,
endpoint and params, the dispatcher's return value is not a parsed
JSON value — `_call_api` ends in `return req`, handing back the raw
response object, so the claim that it returns the body parsed as JSON
(rather than an unparsed response object) is false. -/
theorem call_api_returns_unparsed_response :
    PyObject.isJsonValue
      (_call_api (fun _ => { status_code := 200, text := "[]", jsonBody := Json.arr [] })
        { api_key := "abc123" } (Option.some ("API_GetGame.php?"))
        (Option.some [("i", RAValue.int 10)]) 30 Option.none) = false := rfl

/-- C4 amended: for every endpoint string and params mapping, the
dispatcher performs an HTTP GET to the fixed base URL concatenated
with the endpoint (an omitted endpoint defaults to the empty string),
with the auth-merged params as query string and the timeout it is
given (30 at every wrapper call site, the Python default), and
returns the raw response object; each endpoint wrapper, not the
dispatcher, parses the body as JSON (shown for `get_game`). -/
theorem call_api_dispatch_spec :
    (∀ (http : Http) (c : RAClient) (e : String) (p : Option Dict) (t : Int) (hs : Option Dict),
      _call_api http c (Option.some e) p t hs =
        PyObject.response (http { method := "GET", url := _BASE_URL ++ e,
                                  params := url_params c.api_key p,
                                  timeout := t, headers := hs })) ∧
    (∀ (http : Http) (c : RAClient) (p : Option Dict) (t : Int) (hs : Option Dict),
      _call_api http c Option.none p t hs =
        PyObject.response (http { method := "GET", url := _BASE_URL ++ "",
                                  params := url_params c.api_key p,
                                  timeout := t, headers := hs })) ∧
    (∀ (http : Http) (c : RAClient) (w : List PyWarning) (game : Int),
      (get_game http c w game).2 =
        Except.ok (Response.json (http { method := "GET", url := _BASE_URL ++ "API_GetGame.php?",
                                         params := [("i", RAValue.int game), ("y", RAValue.str c.api_key)],
                                         timeout := 30, headers := Option.none }))) :=
  ⟨fun _ _ _ _ _ _ => rfl, fun _ _ _ _ _ => rfl, fun _ _ _ _ => rfl⟩

/-- C5: with API key "abc123" and game id 10, `get_game` issues — for
every transport oracle, exactly once — the GET request whose URL is
the base URL followed by API_GetGame.php? (so the URL with its final
query-separator character dropped ends in API_GetGame.php) and whose
query parameters are i = 10 and y = "abc123", and returns that
response's parsed body. -/
theorem get_game_concrete_scenario :
    (∀ (http : Http) (w : List PyWarning),
      get_game http { api_key := "abc123" } w 10 =
        (w, Except.ok (Response.json (http { method := "GET",
                                             url := _BASE_URL ++ "API_GetGame.php?",
                                             params := [("i", RAValue.int 10), ("y", RAValue.str "abc123")],
                                             timeout := 30, headers := Option.none })))) ∧
    ("API_GetGame.php".data).isSuffixOf ((_BASE_URL ++ "API_GetGame.php?").data.dropLast) = true :=
  ⟨fun _ _ => rfl, by decide⟩

/-- C6: `get_comments` with target 4 (other arguments at their Python
defaults) returns the invalid-target ValueError, the transport oracle
being universally quantified and unused — no request is issued; with
target 2 and sort "submitted" it issues the request whose
endpoint-specific query parameters are i = game, t = 2, c = 100,
o = 0, sort = "submitted" (plus the auth key y). -/
theorem get_comments_concrete_scenario :
    (∀ (http : Http) (c : RAClient) (w : List PyWarning) (game : Int),
      get_comments http c w game 4 100 0 "submitted" =
        (w, Except.error ("Invalid target type. Must be 1 (game), 2 (achievement), or 3 (user/ulid)."))) ∧
    (∀ (http : Http) (c : RAClient) (w : List PyWarning) (game : Int),
      get_comments http c w game 2 100 0 "submitted" =
        (w, Except.ok (Response.json (http { method := "GET",
                                             url := _BASE_URL ++ "API_GetComments.php?",
                                             params := [("i", RAValue.int game), ("t", RAValue.int 2),
                                               ("c", RAValue.int 100), ("o", RAValue.int 0),
                                               ("sort", RAValue.str "submitted"), ("y", RAValue.str c.api_key)],
                                             timeout := 30, headers := Option.none })))) := by
  refine ⟨fun http c w game => ?_, fun _ _ _ _ => rfl⟩
  unfold get_comments
  rw [if_pos (by decide)]

/-- C7 evidence: with `date=None` passed explicitly — for
`get_user_achievements_earned_on_day` the only way to reach the
defaulting branch, since its Python `date` parameter has no default
value despite the docstring's "default = now" — both date-accepting
endpoints substitute the current local date, formatted as a
zero-padded four-digit year, two-digit month and two-digit day,
hyphen-separated, into the `d` query parameter.  For
`get_recent_game_awards`, whose Python default is `date=None`, an
omitted argument does reach this branch. -/
theorem date_defaulting_on_none :
    (∀ (http : Http) (c : RAClient) (today : Date) (w : List PyWarning) (user : String),
      get_user_achievements_earned_on_day http c today w user Option.none =
        (w, Except.ok (Response.json (http { method := "GET",
                                             url := _BASE_URL ++ "API_GetAchievementsEarnedOnDay.php?",
                                             params := [("u", RAValue.str user),
                                               ("d", RAValue.str (strftimeYMD today)),
                                               ("y", RAValue.str c.api_key)],
                                             timeout := 30, headers := Option.none })))) ∧
    (∀ (http : Http) (c : RAClient) (today : Date) (w : List PyWarning),
      get_recent_game_awards http c today w Option.none 0 25 Option.none =
        (w, Except.ok (Response.json (http { method := "GET",
                                             url := _BASE_URL ++ "API_GetRecentGameAwards.php?",
                                             params := [("d", RAValue.str (strftimeYMD today)),
                                               ("o", RAValue.int 0), ("c", RAValue.int 25),
                                               ("k", RAValue.none), ("y", RAValue.str c.api_key)],
                                             timeout := 30, headers := Option.none })))) :=
  ⟨fun _ _ _ _ _ => rfl, fun _ _ _ _ => rfl⟩

/-- C8: exactly the three superseded wrappers append one advisory to
the warning trace — `get_user_progress` and `get_user_summary` with
category Warning, `get_user_completed_games` with category
DeprecationWarning — while every other embedded wrapper returns the
trace untouched; the advisory never alters control flow: the result
component does not depend on the trace, and each advisory wrapper
still issues its HTTP request with the same parameters and returns
the parsed body exactly as a non-advisory wrapper would. -/
theorem advisory_wrappers :
    (∀ (http : Http) (c : RAClient) (w : List PyWarning) (user : String) (game : PyVal),
      (get_user_progress http c w user game).1 =
        w ++ [{ category := "Warning", message := user_progress_advisory }]) ∧
    (∀ (http : Http) (c : RAClient) (w w' : List PyWarning) (user : String) (game : PyVal),
      (get_user_progress http c w user game).2 = (get_user_progress http c w' user game).2) ∧
    (∀ (http : Http) (c : RAClient) (w : List PyWarning) (user : String) (game : PyVal),
      is_valid_game_csv game = true →
      (get_user_progress http c w user game).2 =
        Except.ok (Response.json (http { method := "GET",
                                         url := _BASE_URL ++ "API_GetUserProgress.php?",
                                         params := [("u", RAValue.str user), ("i", pyValParam game),
                                           ("y", RAValue.str c.api_key)],
                                         timeout := 30, headers := Option.none }))) ∧
    (∀ (http : Http) (c : RAClient) (w : List PyWarning) (user : String) (rg rc : Int),
      get_user_summary http c w user rg rc =
        (w ++ [{ category := "Warning", message := user_summary_advisory }],
          Except.ok (Response.json (http { method := "GET",
                                           url := _BASE_URL ++ "API_GetUserSummary.php?",
                                           params := [("u", RAValue.str user), ("g", RAValue.int rg),
                                             ("a", RAValue.int rc), ("y", RAValue.str c.api_key)],
                                           timeout := 30, headers := Option.none })))) ∧
    (∀ (http : Http) (c : RAClient) (w : List PyWarning) (user : String),
      get_user_completed_games http c w user =
        (w ++ [{ category := "DeprecationWarning", message := user_completed_games_advisory }],
          Except.ok (Response.json (http { method := "GET",
                                           url := _BASE_URL ++ "API_GetUserCompletedGames.php?",
                                           params := [("u", RAValue.str user), ("y", RAValue.str c.api_key)],
                                           timeout := 30, headers := Option.none })))) ∧
    (∀ (http : Http) (c : RAClient) (today : Date) (w : List PyWarning) (user : String) (date : Option String),
      (get_user_achievements_earned_on_day http c today w user date).1 = w) ∧
    (∀ (http : Http) (c : RAClient) (w : List PyWarning) (user : String) (game awards : Int),
      (get_game_info_and_user_progress http c w user game awards).1 = w) ∧
    (∀ (http : Http) (c : RAClient) (w : List PyWarning) (user : String) (list_type : Int),
      (get_user_set_requests http c w user list_type).1 = w) ∧
    (∀ (http : Http) (c : RAClient) (w : List PyWarning) (game : Int),
      (get_game http c w game).1 = w) ∧
    (∀ (http : Http) (c : RAClient) (w : List PyWarning) (game set_level : Int),
      (get_game_extended http c w game set_level).1 = w) ∧
    (∀ (http : Http) (c : RAClient) (w : List PyWarning) (game achievement_type set_level : Int),
      (get_achievement_distribution http c w game achievement_type set_level).1 = w) ∧
    (∀ (http : Http) (c : RAClient) (w : List PyWarning) (game list_type : Int),
      (get_game_rank_and_score http c w game list_type).1 = w) ∧
    (∀ (http : Http) (c : RAClient) (w : List PyWarning) (system has_cheevos hashes : Int),
      (get_game_list http c w system has_cheevos hashes).1 = w) ∧
    (∀ (http : Http) (c : RAClient) (w : List PyWarning) (game target count offset : Int) (sort : String),
      (get_comments http c w game target count offset sort).1 = w) ∧
    (∀ (http : Http) (c : RAClient) (today : Date) (w : List PyWarning)
      (date : Option String) (offset count : Int) (kind : Option String),
      (get_recent_game_awards http c today w date offset count kind).1 = w) ∧
    (∀ (http : Http) (c : RAClient) (w : List PyWarning) (kind : Int),
      (get_inactive_claims http c w kind).1 = w) ∧
    (∀ (http : Http) (c : RAClient) (w : List PyWarning) (game focus depth : Int),
      (get_game_ticket_stats http c w game focus depth).1 = w) := by
  refine ⟨fun _ _ _ _ _ => rfl, fun _ _ _ _ _ _ => rfl, ?_, fun _ _ _ _ _ _ => rfl,
    fun _ _ _ _ => rfl, fun _ _ _ _ _ _ => rfl, fun _ _ _ _ _ _ => rfl,
    fun _ _ _ _ _ => rfl, fun _ _ _ _ => rfl, fun _ _ _ _ _ => rfl,
    fun _ _ _ _ _ _ => rfl, fun _ _ _ _ _ => rfl, fun _ _ _ _ _ _ => rfl,
    fun _ _ _ _ _ _ _ _ => rfl, fun _ _ _ _ _ _ _ _ => rfl, fun _ _ _ _ => rfl,
    fun _ _ _ _ _ _ => rfl⟩
  intro http c w user game h
  unfold get_user_progress
  rw [if_neg (by simp [h])]
  rfl

/-- Witness for C8: the advisory wrapper `get_user_progress` at a
concrete valid game id still issues its request and returns the
oracle's parsed body. -/
theorem advisory_wrappers_witness :
    is_valid_game_csv (PyVal.int 1) = true ∧
      (get_user_progress sampleHttp sampleClient [] "u" (PyVal.int 1)).2 =
        Except.ok (Response.json (sampleHttp { method := "GET",
                                               url := _BASE_URL ++ "API_GetUserProgress.php?",
                                               params := [("u", RAValue.str "u"), ("i", pyValParam (PyVal.int 1)),
                                                 ("y", RAValue.str sampleClient.api_key)],
                                               timeout := 30, headers := Option.none })) :=
  ⟨rfl, advisory_wrappers.2.2.1 sampleHttp sampleClient [] "u" (PyVal.int 1) rfl⟩

/-- C9: `url_params` on a dict object passed by reference (heap cell
`r`) mutates it in place — afterwards that same dict binds "y" to
the api key, every other pre-existing entry of it is unchanged, every
other heap cell is unchanged — and the returned mapping is the same
reference `r`, not a fresh copy. -/
theorem url_params_ref_frame (key : String) (h : Heap) (r : Nat) (hr : r < h.length) :
    (url_params_ref key h r).2 = r ∧
    (url_params_ref key h r).1.length = h.length ∧
    ((url_params_ref key h r).1.getD r []).lookup "y" = Option.some (RAValue.str key) ∧
    (∀ k, k ≠ "y" → ((url_params_ref key h r).1.getD r []).lookup k = (h.getD r []).lookup k) ∧
    (∀ j, j ≠ r → (url_params_ref key h r).1.getD j [] = h.getD j []) := by
  have hcell : (url_params_ref key h r).1.getD r [] = url_params key (Option.some (h.getD r [])) := by
    simp only [url_params_ref, List.getD]
    rw [List.get?_set_eq_of_lt _ hr]
    rfl
  refine ⟨rfl, by simp [url_params_ref], ?_, ?_, ?_⟩
  · rw [hcell]
    exact lookup_dictUpdate_self _ _ _
  · intro k hk
    rw [hcell]
    exact lookup_dictUpdate_ne _ _ _ _ hk
  · intro j hj
    simp only [url_params_ref, List.getD]
    rw [List.get?_set_ne _ _ (Ne.symm hj)]

/-- Witness for C9: a one-cell heap holding a dict with one entry. -/
theorem url_params_ref_frame_witness :
    (0 : Nat) < ([[("a", RAValue.int 1)]] : Heap).length ∧
      (url_params_ref "abc123" [[("a", RAValue.int 1)]] 0).2 = 0 :=
  ⟨by decide, (url_params_ref_frame "abc123" [[("a", RAValue.int 1)]] 0 (by decide)).1⟩

theorem pySplit_ne_nil (sep : Char) (cs : List Char) : pySplit sep cs ≠ [] := by
  cases cs with
  | nil => simp [pySplit]
  | cons c rest =>
    simp only [pySplit]
    cases hs : pySplit sep rest with
    | nil => simp
    | cons p ps => by_cases hc : c = sep <;> simp [hc]

theorem dropWhile_append_singleton (P : Char → Bool) (xs : List Char) (c : Char)
    (hc : P c = false) : ∃ ys, List.dropWhile P (xs ++ [c]) = ys ++ [c] := by
  induction xs with
  | nil => exact ⟨[], by simp [List.dropWhile_cons, hc]⟩
  | cons x xs ih =>
    by_cases hx : P x
    · obtain ⟨ys, hy⟩ := ih
      exact ⟨ys, by simp [List.dropWhile_cons, hx, hy]⟩
    · exact ⟨x :: xs, by simp [List.dropWhile_cons, hx]⟩

theorem pyRStrip_cons_of_not_ws (c : Char) (p : List Char) (hc : c.isWhitespace = false) :
    ∃ q, pyRStrip (c :: p) = c :: q := by
  obtain ⟨ys, hy⟩ := dropWhile_append_singleton Char.isWhitespace p.reverse c hc
  refine ⟨ys.reverse, ?_⟩
  simp only [pyRStrip, List.reverse_cons, hy, List.reverse_append, List.reverse_cons,
    List.reverse_nil, List.nil_append, List.singleton_append]

theorem pyStrip_minus_head (p : List Char) : ∃ q, pyStrip ('-' :: p) = '-' :: q := by
  have h1 : pyLStrip ('-' :: p) = '-' :: p := by
    simp [pyLStrip, List.dropWhile_cons]
  obtain ⟨q, hq⟩ := pyRStrip_cons_of_not_ws '-' p (by decide)
  exact ⟨q, by simp only [pyStrip, h1, hq]⟩

theorem valid_game_csv_minus_head (s : List Char) :
    ((pySplit ',' ('-' :: s)).filter (fun p => !p.isEmpty)).all (fun p => pyIsdigit (pyStrip p)) = false := by
  cases hsp : pySplit ',' s with
  | nil => exact absurd hsp (pySplit_ne_nil ',' s)
  | cons p ps =>
    have hsplit : pySplit ',' ('-' :: s) = ('-' :: p) :: ps := by
      simp only [pySplit, hsp]
      rw [if_neg (by decide)]
    obtain ⟨q, hq⟩ := pyStrip_minus_head p
    have hd : ('-' : Char).isDigit = false := by decide
    rw [hsplit]
    simp [pyIsdigit, hq, hd]

/-- C10: the validator is asymmetric between a negative integer and
its decimal string rendering: every negative integer is accepted (the
integer branch is unconditional), while its string form — a leading
minus sign followed by digits, as Python's `str` renders it — is
rejected, because the token containing the minus sign fails
`isdigit`. -/
theorem negative_int_string_asymmetry (n : Int) (hn : n < 0) :
    is_valid_game_csv (PyVal.int n) = true ∧
    is_valid_game_csv (PyVal.str (toString n)) = false := by
  refine ⟨rfl, ?_⟩
  cases n with
  | ofNat m =>
    simp only [Int.ofNat_eq_natCast] at hn
    omega
  | negSucc m =>
    have hthis : is_valid_game_csv (PyVal.str (toString (Int.negSucc m))) =
        ((pySplit ',' ('-' :: (Nat.repr (m + 1)).data)).filter (fun p => !p.isEmpty)).all
          (fun p => pyIsdigit (pyStrip p)) := rfl
    rw [hthis, valid_game_csv_minus_head]

/-- Witness for C10 at n = -5: the integer -5 is accepted, the string
"-5" is rejected. -/
theorem negative_int_string_asymmetry_witness :
    (-5 : Int) < 0 ∧
      (is_valid_game_csv (PyVal.int (-5)) = true ∧
        is_valid_game_csv (PyVal.str (toString (-5 : Int))) = false) :=
  ⟨by decide, negative_int_string_asymmetry (-5) (by decide)⟩

end RAPy
